import Mathlib

/-!
# Verification of the email-automation batch pipeline

A shallow embedding, in Lean 4, of the components of the `email-automation`
repository that the specification makes claims about:

* `core/data_db_processor.py` — the status/category classifier
  (`CATEGORY_SANITIZATION_MAP`, `process_ticket_metadata`,
  `create_single_line_status`);
* `core/vector_ingestion_engine.py` — knowledge-sheet ingestion
  (`_sanitize`, `embed_batch`, `ingest_excel_file`);
* `search_db_by_field.py` — retrieval (query embedding, padding/truncation);
* `email_responder.py` — response composition (`generate_response`);
* `bedrock.py` — the generative call with exponential backoff
  (`generate_llm_response_with_backoff`);
* `main.py` — the per-ticket orchestration (status rewrite, input
  sanitization, category aliasing, skip list, result rows).

Python strings are modelled as Lean `String`s manipulated through their
character lists; Python machinery such as pandas, Milvus and Bedrock is
modelled by explicit state passing (association lists of collections) and by
oracle parameters (the embedding function, the per-attempt backend outcome).
-/

namespace EmailAutomation

/-! ## Python string primitives

Character-level building blocks for `str.lower`, `str.strip`,
`str.replace` and the two `re.sub` patterns the sources use.
-/

/-- `str.lower()` (ASCII case fold, as used on the ASCII data here). -/
def strLower (s : String) : String :=
  String.mk (s.data.map Char.toLower)

/-- Single-character `str.replace(old, new)` where `new` is one character:
a character-wise map. -/
def replaceChar (old new : Char) (s : String) : String :=
  String.mk (s.data.map (fun c => if c = old then new else c))

/-- Python `in` test for a single character, `'+' in s`. -/
def strContainsChar (s : String) (c : Char) : Bool :=
  s.data.contains c

/-- Python whitespace characters recognised by `str.strip()`. -/
def isPySpace (c : Char) : Bool :=
  c = ' ' || c = Char.ofNat 9 || c = Char.ofNat 10 || c = Char.ofNat 13 ||
    c = Char.ofNat 11 || c = Char.ofNat 12

/-- `str.strip()`: drop leading and trailing whitespace. -/
def pyStrip (s : String) : String :=
  String.mk (((s.data.dropWhile isPySpace).reverse.dropWhile isPySpace).reverse)

end EmailAutomation

namespace EmailAutomation

/-! ## The classifier's category table (`core/data_db_processor.py`, lines 5-49) -/

/-- `CATEGORY_SANITIZATION_MAP`, copied entry for entry from
`core/data_db_processor.py`. -/
def CATEGORY_SANITIZATION_MAP : List (String × String) := [
  ("predisbursal_loan_query_loan_cancellation_request", "predisbursal_loan_query_loan_ca"),
  ("collection_query", "collection_query"),
  ("data_erasure_request__", "data_erasure_request"),
  ("predisbursal_loan_query_credit_team_action_pending", "predisbursal_loan_query_credit"),
  ("predisbursal_loan_query_loan_approved_disbursed", "predisbursal_loan_query_loan_ap"),
  ("predisbursal_loan_query_other_bs_isssues", "predisbursal_loan_query_other_b"),
  ("predisbursal_loan_query_bs_issue_maximum_attempt_reach", "predisbursal_loan_query_bs_issu"),
  ("predisbursal_loan_query_im+_instances_loc-live-withdrawal_request_placed", "predisbursal_loan_query_im_inst"),
  ("post_loan_closure_queries_surrender_of_im+limit", "post_loan_closure_queries_surre"),
  ("post_loan_disbursal_query_basic_emi_-ecs_details_emi_amount", "post_loan_disbursal_query_basic"),
  ("post_loan_closure_queries", "post_loan_closure_queries"),
  ("post_loan_disbursal_query_basic_emi_-ecs_details_ecs_approved,_but_not_triggered", "post_loan_disbursal_query_bas_1"),
  ("post_loan_disbursal_query_payment_ecs_payment", "post_loan_disbursal_query_payme"),
  ("post_loan_disbursal_query", "post_loan_disbursal_query"),
  ("post_loan_disbursal_query_basic_emi_-ecs_details_ecs_status", "post_loan_disbursal_query_bas_2"),
  ("canceled_loan_checking_for_reason_", "canceled_loan_checking_for_reas"),
  ("post_loan_disbursal_query_basic_emi_-ecs_details_emi_date_change_request", "post_loan_disbursal_query_bas_3"),
  ("update_-_edit_details_bank_account_details_", "update_edit_details_bank_accou"),
  ("update_-_edit_details_mobile_number", "update_edit_details_mobile_num"),
  ("update_-_edit_details_email_id", "update_edit_details_email_id"),
  ("post_loan_disbursal_query_basic_emi_-ecs_details_loan_closure_amount", "post_loan_disbursal_query_bas_4"),
  ("post_loan_disbursal_query_payment_dual_payment_not_updated", "post_loan_disbursal_query_pay_1"),
  ("post_loan_disbursal_query_payment_refund_request", "post_loan_disbursal_query_pay_2"),
  ("predisbursal_loan_query_general_info", "predisbursal_loan_query_general"),
  ("predisbursal_loan_query_im+_instances", "predisbursal_loan_query_im_in_1"),
  ("predisbursal_loan_query_incomplete_profile", "predisbursal_loan_query_incompl"),
  ("predisbursal_loan_query_loan_approved_disbursal_in_progress", "predisbursal_loan_approved_disb"),
  ("stop_marketing_sms-emails_details_added_in_the_sheet_", "stop_marketing_sms_emails_detai"),
  ("unregistered-no_content_registered_credentials_needed", "unregistered_no_content_registe"),
  ("collection_queries_settlement_query", "collection_queries_settlement_q"),
  ("post_loan_closure_queries_credit_report_issues", "post_loan_closure_queries_credi"),
  ("post_loan_closure_queries_loan_related_documents_required_", "post_loan_closure_queries_loan"),
  ("predisbursal_loan_query_kyc_issue_pan-aadhar_exists", "predisbursal_loan_query_kyc_iss"),
  ("predisbursal_loan_query_nach_issue_general_information", "predisbursal_loan_query_nach_is"),
  ("predisbursal_loan_query_nach_issue_unable_to_proceed_enach", "predisbursal_loan_query_nach_1"),
  ("predisbursal_loan_query_rf-vf_query_general_information", "predisbursal_loan_query_rf_vf_q"),
  ("predisbursal_loan_query_rf-vf_query_rf-vf_paid_not_updated", "predisbursal_loan_query_rf_vf_p"),
  ("rejected_loan_cancel_enach_", "rejected_loan_cancel_enach"),
  ("rejected_loan_checking_for_reason", "rejected_loan_checking_for_reas"),
  ("rejected_loan_requesting_for_refund_", "rejected_loan_requesting_for_re"),
  ("rejected_loan_wants_to_re-apply-re-consider", "rejected_loan_wants_to_re_apply"),
  ("update_-_edit_details_address", "update_edit_details_address"),
  ("update_-_edit_details_name", "update_edit_details_name")]

/-- Python `dict.get(key, default)` over the association-list model. -/
def dictGetD (m : List (String × String)) (key dflt : String) : String :=
  (m.lookup key).getD dflt

/-- The classifier's canonical category
(`core/data_db_processor.py`, lines 87-88 / 97-98):
`category_raw = str(row.get('new','')).lower()` followed by
`CATEGORY_SANITIZATION_MAP.get(category_raw, category_raw)`. -/
def categoryOf (rawLabel : String) : String :=
  dictGetD CATEGORY_SANITIZATION_MAP (strLower rawLabel) (strLower rawLabel)

end EmailAutomation

namespace EmailAutomation

/-! ## The status classifier (`core/data_db_processor.py`, lines 108-175)

`create_single_line_status(im_value, status_list, row)` builds the canonical
status token on the marker-present path.
-/

/-- The loan-status bucket literals tested by `create_single_line_status`
(`status in ['DISBURSED', 'CLOSED', 'UNDER_REVIEW', 'REJECTED', 'EXPIRED']`). -/
def LOAN_STATUS_VALUES : List String :=
  ["DISBURSED", "CLOSED", "UNDER_REVIEW", "REJECTED", "EXPIRED"]

/-- The repayment-status bucket literals tested by `create_single_line_status`
(`status in ['REGULAR', 'DELAYED_1', 'DELAYED_3', 'WRITTEN_OFF']`). -/
def REPAYMENT_STATUS_VALUES : List String :=
  ["REGULAR", "DELAYED_1", "DELAYED_3", "WRITTEN_OFF"]

/-- One iteration of the `for status in status_list` loop of
`create_single_line_status`: the pair is `(loan_status, repayment_status)`. -/
def bucketStep (lr : String × String) (s : String) : String × String :=
  if s ∈ LOAN_STATUS_VALUES then (strLower s, lr.2)
  else if s ∈ REPAYMENT_STATUS_VALUES then (lr.1, strLower s)
  else lr

/-- The whole loop, starting from `loan_status = ""` and
`repayment_status = ""`. -/
def gatherBuckets (statusList : List String) : String × String :=
  statusList.foldl bucketStep ("", "")

/-- `format_status` from `create_single_line_status`: prepend the marker,
with `'+'` replaced by `'_'` only when the marker contains `'+'`. -/
def format_status (imValue base : String) : String :=
  if strContainsChar imValue '+' then strLower (replaceChar '+' '_' imValue) ++ base
  else strLower imValue ++ base

/-- `create_single_line_status(im_value, status_list, row)`
(`core/data_db_processor.py`, lines 108-175), ported branch for branch.
The `row` argument is unused by the Python function's body and is omitted. -/
def create_single_line_status (imValue : String) (statusList : List String) : String :=
  if statusList.isEmpty then format_status imValue "nostatus"
  else
    if imValue = "IM" then
      if (gatherBuckets statusList).1 = "rejected" then format_status imValue "rejected"
      else if (gatherBuckets statusList).1 = "under_review" then
        format_status imValue "underreview"
      else if (gatherBuckets statusList).1 = "expired" then format_status imValue "expired"
      else if (gatherBuckets statusList).1 = "disbursed" then
        if (gatherBuckets statusList).2 ≠ "" then
          format_status imValue ("disbursed" ++ (gatherBuckets statusList).2)
        else format_status imValue "disbursed"
      else if (gatherBuckets statusList).1 = "closed" then format_status imValue "closed"
      else if (gatherBuckets statusList).1 ≠ "" then
        format_status imValue (gatherBuckets statusList).1
      else format_status imValue "nostatus"
    else if imValue = "IM+" then
      if (gatherBuckets statusList).1 = "disbursed" then
        if (gatherBuckets statusList).2 ≠ "" then
          format_status imValue ("disbursed" ++ (gatherBuckets statusList).2)
        else format_status imValue "disbursed"
      else if (gatherBuckets statusList).1 = "closed" then format_status imValue "closed"
      else if (gatherBuckets statusList).1 = "under_review" then
        format_status imValue "underreview"
      else if (gatherBuckets statusList).1 ≠ "" then
        format_status imValue (gatherBuckets statusList).1
      else format_status imValue "nostatus"
    else
      if (gatherBuckets statusList).1 ≠ "" then
        if (gatherBuckets statusList).2 ≠ "" then
          strLower (replaceChar '+' '_' imValue) ++ (gatherBuckets statusList).1 ++
            (gatherBuckets statusList).2
        else strLower (replaceChar '+' '_' imValue) ++ (gatherBuckets statusList).1
      else strLower (replaceChar '+' '_' imValue) ++ "_nostatus"

/-- The prefix as claim C3 words it: `marker.replace('+','_').lower()` when the
marker contains `'+'`, else `marker.lower()`. -/
def claimPrefixC3 (marker : String) : String :=
  if strContainsChar marker '+' then strLower (replaceChar '+' '_' marker)
  else strLower marker

/-- The token as claim C3 states it (written from the claim's words, for
comparison with `create_single_line_status`): `prefix + base` where `base` is
the loan-status bucket name, with the repayment bucket appended only when the
loan bucket is `"disbursed"` and a repayment bucket was found, and
`base = "nostatus"` when no bucket was identified. -/
def claimedTokenC3 (marker : String) (statusList : List String) : String :=
  let loan := (gatherBuckets statusList).1
  let rep := (gatherBuckets statusList).2
  let base :=
    if loan = "" ∧ rep = "" then "nostatus"
    else if loan = "disbursed" ∧ rep ≠ "" then "disbursed" ++ rep
    else loan
  claimPrefixC3 marker ++ base

/-- The token rule the code actually implements (the amended claim C3):

* prefix as in the claim;
* empty status list: `prefix ++ "nostatus"`;
* markers `"IM"` and `"IM+"`: `base` is the loan bucket with `"under_review"`
  rendered `"underreview"`, the repayment bucket appended exactly when the
  loan bucket is `"disbursed"`, and `"nostatus"` when no loan bucket was
  found (even if a repayment bucket was);
* all other markers: `prefix ++ loanBucket ++ repaymentBucket`, the repayment
  bucket being appended whenever found, for any loan bucket; and
  `prefix ++ "_nostatus"` (extra underscore) when no loan bucket was found. -/
def amendedTokenC3 (marker : String) (statusList : List String) : String :=
  let pfx := claimPrefixC3 marker
  if statusList.isEmpty then pfx ++ "nostatus"
  else
    let loan := (gatherBuckets statusList).1
    let rep := (gatherBuckets statusList).2
    if marker = "IM" ∨ marker = "IM+" then
      if loan = "" then pfx ++ "nostatus"
      else if loan = "disbursed" then pfx ++ "disbursed" ++ rep
      else if loan = "under_review" then pfx ++ "underreview"
      else pfx ++ loan
    else
      if loan = "" then pfx ++ "_nostatus"
      else pfx ++ loan ++ rep

/-- The lower-cased loan buckets that the loop can store. -/
def LOAN_LOWER : List String :=
  ["disbursed", "closed", "under_review", "rejected", "expired"]

lemma format_status_eq_prefix (im base : String) :
    format_status im base = claimPrefixC3 im ++ base := by
  unfold format_status claimPrefixC3
  split <;> rfl

lemma map_replace_plus_id (l : List Char) (h : l.contains '+' = false) :
    l.map (fun c => if c = '+' then '_' else c) = l := by
  induction l with
  | nil => rfl
  | cons c t ih =>
    simp only [List.contains_cons, Bool.or_eq_false_iff, beq_eq_false_iff_ne] at h
    simp only [List.map_cons, if_neg (Ne.symm h.1), ih (by simpa using h.2)]

lemma replaceChar_plus_id (s : String) (h : strContainsChar s '+' = false) :
    replaceChar '+' '_' s = s := by
  unfold replaceChar
  rw [map_replace_plus_id s.data h]

lemma imSanitized_eq_prefix (im : String) :
    strLower (replaceChar '+' '_' im) = claimPrefixC3 im := by
  unfold claimPrefixC3
  split
  · rfl
  · rename_i h
    rw [replaceChar_plus_id im (by simpa using h)]

lemma bucketStep_fst (p : String × String) (s : String) :
    (bucketStep p s).1 = p.1 ∨ (bucketStep p s).1 ∈ LOAN_LOWER := by
  unfold bucketStep
  split
  · rename_i hs
    right
    have hfst : (strLower s, p.2).1 = strLower s := rfl
    rw [hfst]
    simp only [LOAN_STATUS_VALUES, List.mem_cons, List.not_mem_nil, or_false] at hs
    rcases hs with h | h | h | h | h <;> subst h <;> decide
  · split <;> left <;> rfl

lemma gather_fst_cases (l : List String) :
    (gatherBuckets l).1 = "" ∨ (gatherBuckets l).1 ∈ LOAN_LOWER := by
  unfold gatherBuckets
  suffices h : ∀ p : String × String,
      (l.foldl bucketStep p).1 = p.1 ∨ (l.foldl bucketStep p).1 ∈ LOAN_LOWER by
    simpa using h ("", "")
  induction l with
  | nil => intro p; left; rfl
  | cons s t ih =>
    intro p
    rw [List.foldl_cons]
    rcases ih (bucketStep p s) with h | h
    · rw [h]; exact bucketStep_fst p s
    · right; exact h

/-! ## C3: the status-token construction rule -/

/-- C3 counterexample: for marker `"IM++"` with loan status `"CLOSED"` and
repayment status `"REGULAR"`, `create_single_line_status` produces
`"im__closedregular"` — the repayment bucket is appended although the loan
bucket is not `"disbursed"` — while the claim's rule (`claimedTokenC3`)
yields `"im__closed"`. -/
theorem c3_token_rule_counterexample :
    create_single_line_status "IM++" ["CLOSED", "REGULAR"] = "im__closedregular" ∧
    claimedTokenC3 "IM++" ["CLOSED", "REGULAR"] = "im__closed" ∧
    create_single_line_status "IM++" ["CLOSED", "REGULAR"] ≠
      claimedTokenC3 "IM++" ["CLOSED", "REGULAR"] := by
  refine ⟨by decide, by decide, by decide⟩

/-- C3 (amended): on the marker-present path the status token equals
`prefix + base` with `prefix` as the claim states it, but `base` as the code
computes it (`amendedTokenC3`): for markers `"IM"`/`"IM+"` the loan bucket
(with `"under_review"` rendered `"underreview"`) gets the repayment bucket
appended only when the loan bucket is `"disbursed"`, and `"nostatus"` stands
in whenever no loan bucket was identified; for every other marker the
repayment bucket is appended whenever one was found, whatever the loan
bucket, and a missing loan bucket yields `"_nostatus"` with an extra
underscore.  In particular marker `"IM+"`, loan status `"DISBURSED"`,
repayment status `"REGULAR"` yields the token `"im_disbursedregular"`. -/
theorem c3_amended_token_rule :
    (∀ (imValue : String) (statusList : List String),
      create_single_line_status imValue statusList = amendedTokenC3 imValue statusList) ∧
    create_single_line_status "IM+" ["DISBURSED", "REGULAR"] = "im_disbursedregular" := by
  constructor
  · intro im sl
    unfold create_single_line_status amendedTokenC3
    by_cases hemp : sl.isEmpty
    · simp [hemp, format_status_eq_prefix]
    · simp only [hemp, Bool.false_eq_true, if_false]
      rcases gather_fst_cases sl with hl | hl
      · by_cases him : im = "IM"
        · subst him
          simp [hl, format_status_eq_prefix]
        · by_cases him2 : im = "IM+"
          · subst him2
            simp [hl, format_status_eq_prefix]
          · simp [hl, him, him2, imSanitized_eq_prefix]
      · simp only [LOAN_LOWER, List.mem_cons, List.not_mem_nil, or_false] at hl
        by_cases hr : (gatherBuckets sl).2 = ""
        · rcases hl with h | h | h | h | h <;>
            by_cases him : im = "IM" <;>
            first
              | (subst him; simp [h, hr, format_status_eq_prefix, String.append_empty])
              | (by_cases him2 : im = "IM+" <;>
                  first
                    | (subst him2;
                        simp [h, hr, format_status_eq_prefix, String.append_empty])
                    | simp [h, hr, him, him2, imSanitized_eq_prefix,
                        String.append_empty])
        · rcases hl with h | h | h | h | h <;>
            by_cases him : im = "IM" <;>
            first
              | (subst him; simp [h, hr, format_status_eq_prefix, String.append_assoc])
              | (by_cases him2 : im = "IM+" <;>
                  first
                    | (subst him2;
                        simp [h, hr, format_status_eq_prefix, String.append_assoc])
                    | simp [h, hr, him, him2, imSanitized_eq_prefix,
                        String.append_assoc])
  · decide

/-! ## The orchestrator's per-ticket pipeline (`main.py`, lines 157-246) -/

/-- `sanitize_input` (`main.py`, lines 99-103): escape `"`, backtick and `$`
by prefixing each occurrence with a backslash (three successive
`str.replace` calls, each inserting a backslash before the character). -/
def escapeCharWithBackslash (target : Char) (l : List Char) : List Char :=
  l.flatMap (fun c => if c = target then [Char.ofNat 92, c] else [c])

/-- `sanitize_input(input_str)` from `main.py`.  `Char.ofNat 34` is the double
quote, `Char.ofNat 96` is the backtick, `Char.ofNat 36` is the dollar sign. -/
def sanitize_input (s : String) : String :=
  String.mk (escapeCharWithBackslash (Char.ofNat 36)
    (escapeCharWithBackslash (Char.ofNat 96)
      (escapeCharWithBackslash (Char.ofNat 34) s.data)))

/-- A character kept by `milvus_sanitize` (`re.sub(r'[^a-zA-Z0-9_]', '_', name)`). -/
def milvusGoodChar (c : Char) : Bool :=
  ('a' ≤ c && c ≤ 'z') || ('A' ≤ c && c ≤ 'Z') || ('0' ≤ c && c ≤ '9') || c = '_'

/-- `milvus_sanitize(name)` (`main.py`, lines 105-106): replace every
character outside `[a-zA-Z0-9_]` with `'_'` (character-wise, since the
pattern has no `+`). -/
def milvus_sanitize (s : String) : String :=
  String.mk (s.data.map (fun c => if milvusGoodChar c then c else '_'))

/-- `skip_search_categories` (`main.py`, lines 193-201). -/
def skip_search_categories : List String := [
  "post_loan_disbursal_query_payment_lndn_payment_",
  "predisbursal_loan_query_rf/vf_query_general_information",
  "escalations_rbi-cyber_cell_",
  "escalations_singledebt_",
  "post_loan_disbursal_query_payment_paytm_payment_not_updated",
  "other_kyc_issues",
  "predisbursal_loan_query_im+_instances_unable_to_place_withdrawal"]

/-- The status rewrite at `main.py`, lines 161-163: exactly the string
`"im_closed"` becomes `"imclosed"`; any other value is left alone by this
step. -/
def imClosedRewrite (status : String) : String :=
  if status = "im_closed" then "imclosed" else status

/-- The status value `main` passes to retrieval: the `im_closed` rewrite
followed by `sanitize_input` (`main.py`, lines 161-168). -/
def mainStatusOf (rawStatus : String) : String :=
  sanitize_input (imClosedRewrite rawStatus)

/-- The category value `main` checks against the skip list and passes to
retrieval (`main.py`, lines 165-191): `sanitize_input`, then
`milvus_sanitize`, then the `CATEGORY_SANITIZATION_MAP` remap, then the two
hard-coded aliases. -/
def mainCategoryOf (rawCategory : String) : String :=
  let c1 := milvus_sanitize (sanitize_input rawCategory)
  let c2 := dictGetD CATEGORY_SANITIZATION_MAP c1 c1
  let c3 := if c2 = "predisbursal_loan_query_im+_instances" then
    "predisbursal_loan_query_im_in_1" else c2
  if c3 = "update_-_edit_details_bank_account_details_" then
    "update_edit_details_bank_accou" else c3

/-- One row of the persisted result set (`results.append(...)` in `main.py`). -/
structure ResultRow where
  ticket : String
  subject : String
  email_body : String
  responseGenerated : String
  templateReferred : String
deriving DecidableEq

/-- Observable effect of processing one classified ticket: the rows appended
to the result set, the number of `run_search_db_by_field` invocations, and
the number of `run_email_responder` invocations (the generative backend is
reached only through the latter). -/
structure TicketOutcome where
  appendedRows : List ResultRow
  retrievalCalls : Nat
  responderCalls : Nat
deriving DecidableEq

/-- The body of `main`'s per-ticket loop after a successful classification
(`main.py`, lines 161-246), with the two subprocesses as oracle parameters.
In the skip-list branch and in the empty-category branch the code builds a
`response` string and logs it but never appends it to `results`, so those
branches contribute no row and no calls.  The exception handlers of the
search branch are not modelled (no claim depends on them). -/
def processClassifiedTicket
    (runSearch : String → String → String → String → String)
    (runResponder : String → String → String → String)
    (ticketId subject emailBody rawStatus rawCategory : String) : TicketOutcome :=
  let status := mainStatusOf rawStatus
  let subjectS := sanitize_input subject
  let bodyS := sanitize_input emailBody
  let category := mainCategoryOf rawCategory
  if category ∈ skip_search_categories then
    ⟨[], 0, 0⟩
  else if category = "" then
    ⟨[], 0, 0⟩
  else
    let stdout := runSearch category subjectS bodyS status
    let text := runResponder stdout subjectS ticketId
    ⟨[⟨ticketId, subjectS, bodyS, text, "email_responder used (search or fallback)"⟩], 1, 1⟩

/-! ## C1: skip-list categories and the result row -/

/-- C1, evaluated at the failing input: for a ticket whose (aliased) category
is the skip-list entry `"other_kyc_issues"`, `main` performs zero retrieval
calls and zero responder (hence zero generative-backend) calls — that half of
the claim holds — but it appends NO result row at all: the skip branch only
assigns the `"Skipped search_db_by_field for category: ..."` message to a
local variable and logs it, never appending it to `results`, contradicting
the claim's (and the spec's) "exactly one result row marked as skipped". -/
theorem c1_skip_category_appends_no_row :
    ∀ (runSearch : String → String → String → String → String)
      (runResponder : String → String → String → String),
      processClassifiedTicket runSearch runResponder
        "3632479" "Change bank account" "Hi team" "disbursed" "other_kyc_issues" =
      ⟨[], 0, 0⟩ := by
  intro runSearch runResponder
  rfl

/-! ## C10: the `im_closed` → `imclosed` rewrite -/

/-- C10: in the orchestrator, a classifier-returned status equal to exactly
`"im_closed"` is rewritten to `"imclosed"` before being passed to retrieval,
every other status is passed through this step unchanged, and the status
retrieval receives is exactly `sanitize_input` of the rewritten value. -/
theorem c10_im_closed_rewrite :
    imClosedRewrite "im_closed" = "imclosed" ∧
    (∀ status : String, status ≠ "im_closed" → imClosedRewrite status = status) ∧
    (∀ rawStatus : String,
      mainStatusOf rawStatus = sanitize_input (imClosedRewrite rawStatus)) :=
  ⟨rfl, fun _ h => if_neg h, fun _ => rfl⟩

/-- Witness for C10: the rewrite at `"im_closed"` and the pass-through at the
distinct status `"imdisbursedregular"`. -/
theorem c10_im_closed_rewrite_witness :
    imClosedRewrite "im_closed" = "imclosed" ∧
    ("imdisbursedregular" : String) ≠ "im_closed" ∧
    imClosedRewrite "imdisbursedregular" = "imdisbursedregular" :=
  ⟨c10_im_closed_rewrite.1, by decide,
    c10_im_closed_rewrite.2.1 "imdisbursedregular" (by decide)⟩

/-! ## C5: the canonical-category invariant -/

/-- A character allowed by the pattern `^[a-z0-9_]+$`. -/
def goodCatChar (c : Char) : Bool :=
  ('a' ≤ c && c ≤ 'z') || ('0' ≤ c && c ≤ '9') || c = '_'

/-- The invariant claim C5 states for canonical categories: lower-case (implied
by the character set), matches `^[a-z0-9_]+$`, no leading or trailing
underscore, and length-bounded (the table's values are at most 31 characters
long). -/
def isCanonicalCategory (s : String) : Bool :=
  !s.data.isEmpty && s.data.all goodCatChar &&
    !(s.data.head? = some '_') && !(s.data.getLast? = some '_') &&
    decide (s.data.length ≤ 31)

lemma lookup_mem_values {m : List (String × String)} {k v : String}
    (h : m.lookup k = some v) : v ∈ m.map Prod.snd := by
  induction m with
  | nil => simp at h
  | cons p t ih =>
    rw [List.lookup_cons] at h
    cases hk : k == p.1 with
    | true =>
      simp only [hk, Option.some_inj] at h
      rw [List.map_cons, ← h]
      exact List.mem_cons_self _ _
    | false =>
      simp only [hk] at h
      rw [List.map_cons]
      exact List.mem_cons_of_mem _ (ih h)

/-- C5 counterexample: the raw category label `"a-b"` is not a key of the
sanitization table, so the classifier's canonical category for it is the
lower-cased label `"a-b"` itself, which contains `'-'` and therefore fails
the `^[a-z0-9_]+$` invariant the claim asserts for every raw label. -/
theorem c5_category_invariant_counterexample :
    categoryOf "a-b" = "a-b" ∧ isCanonicalCategory (categoryOf "a-b") = false := by
  refine ⟨rfl, by decide⟩

/-- C5 (amended): the canonical category produced by the classifier is either
one of the fixed sanitization table's values — each of which is lower-case,
matches `^[a-z0-9_]+$`, has no leading or trailing underscore, and is at most
31 characters long — or it is the raw label merely lower-cased, passed
through unchanged, which need not satisfy any of those constraints. -/
theorem c5_amended_category_invariant :
    (∀ rawLabel : String,
      categoryOf rawLabel ∈ CATEGORY_SANITIZATION_MAP.map Prod.snd ∨
        categoryOf rawLabel = strLower rawLabel) ∧
    (∀ v ∈ CATEGORY_SANITIZATION_MAP.map Prod.snd, isCanonicalCategory v = true) := by
  constructor
  · intro raw
    unfold categoryOf dictGetD
    cases h : CATEGORY_SANITIZATION_MAP.lookup (strLower raw) with
    | none => right; rfl
    | some v => left; simpa using lookup_mem_values h
  · decide

/-- Witness for C5 (amended): instantiates both parts at concrete inputs —
the table value `"collection_query"` satisfies the invariant, and the
unmapped label `"zz"` falls through to the lower-cased-label case. -/
theorem c5_amended_category_invariant_witness :
    isCanonicalCategory "collection_query" = true ∧
    (categoryOf "zz" ∈ CATEGORY_SANITIZATION_MAP.map Prod.snd ∨
      categoryOf "zz" = strLower "zz") :=
  ⟨c5_amended_category_invariant.2 "collection_query" (by decide),
    c5_amended_category_invariant.1 "zz"⟩

/-! ## Knowledge-sheet ingestion (`core/vector_ingestion_engine.py`) -/

/-- `re.sub(r"[^a-z0-9_]+", "_", name)`: replace each maximal run of
characters outside `[a-z0-9_]` with a single `'_'`.  (`goodCatChar` is
exactly the `[a-z0-9_]` character class.)  The Boolean argument records
whether the scanner is currently inside such a run (so that only the run's
first character emits the `'_'`). -/
def subBadRunsAux : Bool → List Char → List Char
  | _, [] => []
  | inRun, c :: cs =>
    if goodCatChar c then c :: subBadRunsAux false cs
    else if inRun then subBadRunsAux true cs
    else '_' :: subBadRunsAux true cs

/-- `re.sub(r"[^a-z0-9_]+", "_", name)` on a whole character list. -/
def subBadRuns (l : List Char) : List Char := subBadRunsAux false l

/-- `re.sub(r"_+", "_", name)`: collapse each run of underscores to one.
The Boolean argument records whether the scanner is inside a run of
underscores. -/
def collapseUnderscoresAux : Bool → List Char → List Char
  | _, [] => []
  | inRun, c :: cs =>
    if c = '_' then
      if inRun then collapseUnderscoresAux true cs
      else '_' :: collapseUnderscoresAux true cs
    else c :: collapseUnderscoresAux false cs

/-- `re.sub(r"_+", "_", name)` on a whole character list. -/
def collapseUnderscores (l : List Char) : List Char := collapseUnderscoresAux false l

/-- `name.strip("_")`: drop leading and trailing underscores. -/
def stripUnderscoreEnds (l : List Char) : List Char :=
  ((l.dropWhile (fun c => c = '_')).reverse.dropWhile (fun c => c = '_')).reverse

/-- `_sanitize(name)` (`core/vector_ingestion_engine.py`, lines 15-22):
`str(name).strip().lower()`, then the two `re.sub` passes, then
`.strip("_")`. -/
def sanitizeCollectionName (s : String) : String :=
  String.mk (stripUnderscoreEnds
    (collapseUnderscores (subBadRuns (strLower (pyStrip s)).data)))

/-- `REQUIRED_COLS` (`core/vector_ingestion_engine.py`, line 11). -/
def REQUIRED_COLS : List String := ["subject", "email_body"]

/-- One knowledge sheet as read from the workbook: its tab name, its column
headers, and its number of data rows (`len(df)`; `df.empty` iff zero). -/
structure SheetData where
  sheetName : String
  columns : List String
  numRows : Nat

/-- What the claims observe about a Milvus collection: its schema field list
and its record count. -/
structure CollectionInfo where
  fields : List String
  numRecords : Nat
deriving DecidableEq

/-- The vector-index service state: collection name → collection. -/
abbrev MilvusState := List (String × CollectionInfo)

/-- `utility.has_collection(name)`. -/
def has_collection (st : MilvusState) (name : String) : Bool :=
  (st.lookup name).isSome

/-- `utility.drop_collection(name)`. -/
def drop_collection (st : MilvusState) (name : String) : MilvusState :=
  st.filter (fun p => p.1 != name)

/-- The per-sheet body of `ingest_excel_file`
(`core/vector_ingestion_engine.py`, lines 57-118): sanitize the column
headers and the sheet name, drop an existing collection of that name, then
`continue` — creating nothing — when a required column is missing or the
sheet has no rows; otherwise create the collection with the dynamic schema
(`id`, `embedding`, then one VARCHAR field per non-required column) and
insert one record per row. -/
def ingest_sheet (st : MilvusState) (sheet : SheetData) : MilvusState :=
  let cols := sheet.columns.map sanitizeCollectionName
  let collection_name := sanitizeCollectionName sheet.sheetName
  let st1 := if has_collection st collection_name then
    drop_collection st collection_name else st
  if !cols.contains "subject" || !cols.contains "email_body" then st1
  else if sheet.numRows = 0 then st1
  else
    let metadata_columns := cols.filter (fun c => !REQUIRED_COLS.contains c)
    (collection_name, ⟨"id" :: "embedding" :: metadata_columns, sheet.numRows⟩) :: st1

/-! ## C2: sheets missing a required column -/

/-- C2, evaluated at the failing input: for the sheet `"payments"` whose
columns are `["subject", "note"]` (no `email_body`), ingestion drops the
pre-existing `payments` collection (it existed before, first conjunct) and
then `continue`s before `Collection(name=..., schema=...)` is ever reached,
so after ingest NO `payments` collection exists at all (second and third
conjuncts, with and without a pre-existing collection) — contradicting the
claim (and the code's own comment `"Always create collection, even if empty
or invalid"`) that an empty, queryable collection is created. -/
theorem c2_missing_column_leaves_no_collection :
    has_collection [("payments", ⟨["id", "embedding", "note"], 7⟩)] "payments" = true ∧
    (ingest_sheet [("payments", ⟨["id", "embedding", "note"], 7⟩)]
        ⟨"payments", ["subject", "note"], 3⟩).lookup "payments" = none ∧
    (ingest_sheet [] ⟨"payments", ["subject", "note"], 3⟩).lookup "payments" = none := by
  refine ⟨rfl, by decide, by decide⟩

/-! ## C7: ingestion as idempotent replace -/

/-- C7, evaluated at the failing input: a sheet that has both required
columns but zero data rows (`df.empty`).  The pre-existing `refunds`
collection is dropped and — despite the code's `"... is empty, but
collection created."` message — nothing is recreated, so after ingest no
collection exists, contradicting the claim's "dropped and rebuilt from the
current sheet contents".  For contrast, the last two conjuncts evaluate a
well-formed non-empty sheet at the same name: there ingestion is a genuine
replace, and re-ingesting it leaves the identical collection (same record
count, same field set). -/
theorem c7_empty_sheet_not_rebuilt :
    (ingest_sheet [("refunds", ⟨["id", "embedding", "status"], 5⟩)]
        ⟨"refunds", ["subject", "email_body"], 0⟩).lookup "refunds" = none ∧
    (ingest_sheet [("refunds", ⟨["id", "embedding", "status"], 5⟩)]
        ⟨"refunds", ["subject", "email_body", "status"], 4⟩).lookup "refunds" =
      some ⟨["id", "embedding", "status"], 4⟩ ∧
    ingest_sheet
        (ingest_sheet [("refunds", ⟨["id", "embedding", "status"], 5⟩)]
          ⟨"refunds", ["subject", "email_body", "status"], 4⟩)
        ⟨"refunds", ["subject", "email_body", "status"], 4⟩ =
      ingest_sheet [("refunds", ⟨["id", "embedding", "status"], 5⟩)]
        ⟨"refunds", ["subject", "email_body", "status"], 4⟩ := by
  refine ⟨by decide, by decide, by decide⟩

/-! ## The generative call with backoff (`bedrock.py`, lines 12-60) -/

/-- Outcome of one `invoke_model` attempt, as the `try/except` of
`generate_llm_response_with_backoff` distinguishes them: a returned text, an
HTTP 429 (`Too many requests`), or any other error (re-raised immediately). -/
inductive LLMOutcome where
  | success (text : String)
  | rateLimited
  | failure (err : String)

/-- Result of the whole call: the text, an immediately propagated error, or
the terminal `RuntimeError("Failed after multiple retries...")`. -/
inductive LLMResult where
  | ok (text : String)
  | err (e : String)
  | exhausted
deriving DecidableEq

/-- What the claims observe about one run of the backoff loop: its result,
the total `time.sleep` duration in seconds, and how many `invoke_model`
attempts were made. -/
structure BackoffTrace where
  result : LLMResult
  totalWait : Nat
  attemptsUsed : Nat
deriving DecidableEq

/-- The `for attempt in range(retries)` loop of
`generate_llm_response_with_backoff`: `fuel` is the number of remaining
attempts, `idx` the index of the next attempt, `delay` the current backoff
delay, `waited` and `att` the accumulated sleep time and attempt count.  On
a rate limit the code sleeps `delay` and doubles it; on any other error it
re-raises at once; after the loop it raises the terminal retry-exhausted
error. -/
def backoffLoop (f : Nat → LLMOutcome) :
    Nat → Nat → Nat → Nat → Nat → BackoffTrace
  | 0, _, _, waited, att => ⟨.exhausted, waited, att⟩
  | fuel + 1, idx, delay, waited, att =>
    match f idx with
    | .success t => ⟨.ok t, waited, att + 1⟩
    | .failure e => ⟨.err e, waited, att + 1⟩
    | .rateLimited => backoffLoop f fuel (idx + 1) (delay * 2) (waited + delay) (att + 1)

/-- `generate_llm_response_with_backoff(prompt, max_tokens, retries=5)`
(`bedrock.py`, lines 12-60) with its default `retries = 5` and initial
`delay = 5`; the backend's behaviour on the `k`-th attempt is the oracle
`f k`. -/
def generate_llm_response_with_backoff (f : Nat → LLMOutcome) : BackoffTrace :=
  backoffLoop f 5 0 5 0 0

lemma backoffLoop_attempts_le (f : Nat → LLMOutcome) :
    ∀ (fuel idx delay waited att : Nat),
      (backoffLoop f fuel idx delay waited att).attemptsUsed ≤ att + fuel := by
  intro fuel
  induction fuel with
  | zero => intro idx delay waited att; simp [backoffLoop]
  | succ n ih =>
    intro idx delay waited att
    cases hf : f idx with
    | success t => simp [backoffLoop, hf]
    | failure e => simp [backoffLoop, hf]
    | rateLimited =>
      simp only [backoffLoop, hf]
      have h := ih (idx + 1) (delay * 2) (waited + delay) (att + 1)
      omega

/-! ## C8: the retry/backoff policy -/

/-- C8: the generative-call retry policy of `bedrock.py`.
(1) Three consecutive rate-limit signals followed by success return the text
after a total backoff wait of `5 + 10 + 20 = 35` seconds, on the fourth
attempt.  (2) A non-rate-limit backend error at attempt `k` (after `k`
rate limits) aborts immediately with that error — no further attempts, only
the `5 * (2^k - 1)` seconds already waited.  (3) Five rate limits exhaust the
retries and yield the terminal retry-exhausted error.  (4) At most 5 attempts
are ever made. -/
theorem c8_backoff_retry_policy :
    (∀ (f : Nat → LLMOutcome) (t : String),
      f 0 = .rateLimited → f 1 = .rateLimited → f 2 = .rateLimited →
      f 3 = .success t →
      generate_llm_response_with_backoff f = ⟨.ok t, 35, 4⟩) ∧
    (∀ (f : Nat → LLMOutcome) (e : String) (k : Nat), k < 5 →
      (∀ i, i < k → f i = .rateLimited) → f k = .failure e →
      generate_llm_response_with_backoff f = ⟨.err e, 5 * (2 ^ k - 1), k + 1⟩) ∧
    (∀ f : Nat → LLMOutcome, (∀ i, i < 5 → f i = .rateLimited) →
      generate_llm_response_with_backoff f = ⟨.exhausted, 155, 5⟩) ∧
    (∀ f : Nat → LLMOutcome,
      (generate_llm_response_with_backoff f).attemptsUsed ≤ 5) := by
  refine ⟨?_, ?_, ?_, ?_⟩
  · intro f t h0 h1 h2 h3
    simp [generate_llm_response_with_backoff, backoffLoop, h0, h1, h2, h3]
  · intro f e k hk hrl hf
    interval_cases k
    · simp [generate_llm_response_with_backoff, backoffLoop, hf]
    · have h0 := hrl 0 (by norm_num)
      simp [generate_llm_response_with_backoff, backoffLoop, h0, hf]
    · have h0 := hrl 0 (by norm_num)
      have h1 := hrl 1 (by norm_num)
      simp [generate_llm_response_with_backoff, backoffLoop, h0, h1, hf]
    · have h0 := hrl 0 (by norm_num)
      have h1 := hrl 1 (by norm_num)
      have h2 := hrl 2 (by norm_num)
      simp [generate_llm_response_with_backoff, backoffLoop, h0, h1, h2, hf]
    · have h0 := hrl 0 (by norm_num)
      have h1 := hrl 1 (by norm_num)
      have h2 := hrl 2 (by norm_num)
      have h3 := hrl 3 (by norm_num)
      simp [generate_llm_response_with_backoff, backoffLoop, h0, h1, h2, h3, hf]
  · intro f h
    have h0 := h 0 (by norm_num)
    have h1 := h 1 (by norm_num)
    have h2 := h 2 (by norm_num)
    have h3 := h 3 (by norm_num)
    have h4 := h 4 (by norm_num)
    simp [generate_llm_response_with_backoff, backoffLoop, h0, h1, h2, h3, h4]
  · intro f
    exact backoffLoop_attempts_le f 5 0 5 0 0

/-- Witness for C8: a backend that rate-limits on its first three attempts
and succeeds on the fourth waits `5 + 10 + 20 = 35` seconds in total. -/
theorem c8_backoff_retry_policy_witness :
    generate_llm_response_with_backoff
        (fun i => if i < 3 then .rateLimited else .success "ok") =
      ⟨.ok "ok", 35, 4⟩ :=
  c8_backoff_retry_policy.1 _ "ok" rfl rfl rfl rfl

/-! ## The response composer (`email_responder.py`, lines 52-117) -/

/-- The part of the search-results JSON that `generate_response` branches on.
`fieldNotFoundCollection` models the error channel: `search_db_by_field.py`
(line 46) emits the string `Field <f> not found in collection <c>` (with the
names in single quotes) for a missing response field, and
`email_responder.py` (lines 64-70) detects it by substring tests and
re-extracts the collection name `c` with a regular expression; the channel
is modelled already parsed, as the extracted collection name. -/
structure SearchData where
  fieldNotFoundCollection : Option String

/-- The tagged result `generate_response` returns: `success` carries the
email text and the `fallback_template_used` metadata flag; `error` carries
the reason string of the `except` handler. -/
inductive ResponseDraft where
  | success (emailResponse : String) (fallbackTemplateUsed : Bool)
  | error (reason : String)
deriving DecidableEq

/-- The generative branch of `generate_response`: build the prompt and call
`bedrock.generate_llm_response_with_backoff` once (second component counts
those calls); an exception becomes a `status: error` dictionary.  The
success dictionary carries the LIVE `fallback_template_used` variable
(`email_responder.py`, line 107) — which is `True` when a template file
existed even though its empty content kept the template path from being
taken; the error dictionary has no such flag. -/
def llmBranch (fallbackTemplateUsed : Bool) (llm : Except String String) :
    ResponseDraft × Nat :=
  match llm with
  | .ok t => (.success t fallbackTemplateUsed, 1)
  | .error e => (.error e, 1)

/-- `EmailTemplateGenerator.generate_response` (`email_responder.py`, lines
52-117), restricted to the data the claims observe.  `templates c` models
`os.path.exists('templates/<c>.html')` plus the file read (`none` = no such
file).  The code sets `fallback_template_used = True` when the file exists,
but then takes the template path only under
`if fallback_template_used and fallback_template_content:` — so an existing
file with empty (falsy) content still falls through to the generative
branch. -/
def generate_response (templates : String → Option String)
    (llm : Except String String) (searchData : SearchData) : ResponseDraft × Nat :=
  match searchData.fieldNotFoundCollection with
  | some c =>
    match templates c with
    | some content =>
      if content ≠ "" then (.success content true, 0)
      else llmBranch true llm
    | none => llmBranch false llm
  | none => llmBranch false llm

/-! ## C9: the template fallback short-circuit -/

/-- C9 counterexample: a category with an EXISTING static template whose
content is empty.  `templates` returns `some ""` for
`"collection_query"` (the file exists), the retrieval outcome is
`FieldNotFound` for that category, yet `generate_response` invokes the
generative backend once and returns the drafted text, not the template:
`fallback_template_content` is falsy, so the
`if fallback_template_used and fallback_template_content:` guard fails (the
returned metadata still carries `fallback_template_used = True`, the live
variable, but the zero-backend-calls and verbatim-template parts of the
claim are violated). -/
theorem c9_empty_template_still_calls_backend :
    (fun c => if c = "collection_query" then some "" else none) "collection_query" =
      some "" ∧
    generate_response (fun c => if c = "collection_query" then some "" else none)
        (Except.ok "drafted text") ⟨some "collection_query"⟩ =
      (.success "drafted text" true, 1) ∧
    ((.success "drafted text" true, 1) : ResponseDraft × Nat) ≠
      (.success "" true, 0) := by
  refine ⟨rfl, rfl, by decide⟩

/-- C9 (amended): for every `FieldNotFound` retrieval outcome for a category
`c` with an existing static template whose content is NON-EMPTY,
`generate_response` returns that content verbatim as a success (with the
fallback flag set) and performs zero invocations of the generative
backend. -/
theorem c9_amended_template_shortcircuit :
    ∀ (templates : String → Option String) (llm : Except String String)
      (c t : String), templates c = some t → t ≠ "" →
      generate_response templates llm ⟨some c⟩ = (.success t true, 0) := by
  intro templates llm c t ht hne
  simp [generate_response, ht, hne]

/-- Witness for C9 (amended): a concrete non-empty template is returned
verbatim with zero backend calls. -/
theorem c9_amended_template_shortcircuit_witness :
    (fun c => if c = "collection_query" then some "Dear customer, ..." else none)
        "collection_query" = some "Dear customer, ..." ∧
    generate_response
        (fun c => if c = "collection_query" then some "Dear customer, ..." else none)
        (Except.ok "drafted text") ⟨some "collection_query"⟩ =
      (.success "Dear customer, ..." true, 0) :=
  ⟨rfl, c9_amended_template_shortcircuit _ (Except.ok "drafted text")
    "collection_query" "Dear customer, ..." rfl (by decide)⟩

/-! ## Embeddings (`core/vector_ingestion_engine.py` lines 41-46 and
`search_db_by_field.py` lines 64-82) -/

/-- Sum of squared components — the square of the L2 norm. -/
def sumSq {α : Type} [Field α] (v : List α) : α :=
  (v.map (fun x => x * x)).sum

/-- `embed_batch`'s normalization
(`embeddings / np.linalg.norm(embeddings, axis=1, keepdims=True)`): divide
every component by the vector's L2 norm, `sqrtFn` standing for the square
root on `α`. -/
def normalizeWith {α : Type} [Field α] (sqrtFn : α → α) (v : List α) : List α :=
  v.map (fun x => x / sqrtFn (sumSq v))

/-- The dimension fix-up of `search_db_by_field.main` (lines 78-82): truncate
when too long, zero-pad when too short. -/
def padTruncToDim {α : Type} [Field α] (dim : Nat) (v : List α) : List α :=
  if v.length = dim then v
  else if v.length > dim then v.take dim
  else v ++ List.replicate (dim - v.length) 0

/-- The query vector `search_db_by_field.main` sends to `collection.search`
(lines 64-95): `model.encode([query_text])[0]` — with NO re-normalization —
then the dimension fix-up.  `encode` is the embedding-service oracle. -/
def queryEmbedding {α : Type} [Field α] (encode : String → List α) (dim : Nat)
    (queryText : String) : List α :=
  padTruncToDim dim (encode queryText)

lemma sumSq_nonneg (v : List ℝ) : 0 ≤ sumSq v := by
  induction v with
  | nil => simp [sumSq]
  | cons x t ih =>
    simp only [sumSq, List.map_cons, List.sum_cons] at *
    exact add_nonneg (mul_self_nonneg x) ih

lemma sumSq_map_div (v : List ℝ) (n : ℝ) :
    sumSq (v.map (fun x => x / n)) = sumSq v / (n * n) := by
  induction v with
  | nil => simp [sumSq]
  | cons x t ih =>
    simp only [sumSq, List.map_cons, List.sum_cons] at *
    rw [ih, div_mul_div_comm, add_div]

/-! ## C4: unit-norm embeddings at ingestion and at query time -/

/-- C4 counterexample: with an embedding service returning the (non-unit)
raw vector `[3, 4]`, the query vector actually used for the search is that
raw vector unchanged — `search_db_by_field` never re-normalizes it — and its
L2 norm is `5`, not `1`.  So "every query vector used for search has unit L2
norm" and "the query text is embedded with ... the same normalization as
ingestion" fail on the code. -/
theorem c4_query_vector_not_normalized :
    queryEmbedding (fun _ => [(3 : ℝ), 4]) 2 "query text" = [3, 4] ∧
    Real.sqrt (sumSq ([(3 : ℝ), 4])) = 5 ∧ (5 : ℝ) ≠ 1 := by
  refine ⟨rfl, ?_, by norm_num⟩
  have h : sumSq ([(3 : ℝ), 4]) = 25 := by simp [sumSq]; norm_num
  rw [h, show (25 : ℝ) = 5 ^ 2 by norm_num, Real.sqrt_sq (by norm_num)]

/-- C4 (amended): every embedding vector stored at ingestion has unit L2
norm (whenever the raw embedding is non-zero — `embed_batch` divides by the
L2 norm), but the query pipeline, although it uses the same embedding
function, applies NO normalization: whenever the raw embedding already has
the collection's dimension, the query vector used for search is exactly the
embedding service's raw output, so its norm is unit only if the service's
output already was. -/
theorem c4_amended_normalization :
    (∀ v : List ℝ, sumSq v ≠ 0 →
      Real.sqrt (sumSq (normalizeWith Real.sqrt v)) = 1) ∧
    (∀ (encode : String → List ℝ) (queryText : String) (dim : Nat),
      (encode queryText).length = dim →
      queryEmbedding encode dim queryText = encode queryText) := by
  constructor
  · intro v hv
    have hnn := sumSq_nonneg v
    have h : sumSq (normalizeWith Real.sqrt v) = 1 := by
      unfold normalizeWith
      rw [sumSq_map_div, Real.mul_self_sqrt hnn, div_self hv]
    rw [h, Real.sqrt_one]
  · intro encode queryText dim h
    simp [queryEmbedding, padTruncToDim, h]

/-- Witness for C4 (amended): the raw embedding `[3, 4]` is non-zero, its
stored (normalized) form has unit norm, and the query pipeline returns it
unchanged when the dimensions agree. -/
theorem c4_amended_normalization_witness :
    sumSq ([(3 : ℝ), 4]) ≠ 0 ∧
    Real.sqrt (sumSq (normalizeWith Real.sqrt [(3 : ℝ), 4])) = 1 ∧
    queryEmbedding (fun _ => [(3 : ℝ), 4]) 2 "query text" =
      (fun _ => [(3 : ℝ), 4]) "query text" := by
  have hne : sumSq ([(3 : ℝ), 4]) ≠ 0 := by simp [sumSq]; norm_num
  exact ⟨hne, c4_amended_normalization.1 [3, 4] hne,
    c4_amended_normalization.2 (fun _ => [(3 : ℝ), 4]) "query text" 2 rfl⟩

/-! ## C6: what the table maps `predisbursal_loan_query_im+_instances` to -/

/-- C6 counterexample: the fixed sanitization table does NOT map the raw label
`"predisbursal_loan_query_im+_instances"` to
`"predisbursal_loan_query_im_inst"`; it maps it to
`"predisbursal_loan_query_im_in_1"`.  (The value
`"predisbursal_loan_query_im_inst"` belongs to the longer key
`"predisbursal_loan_query_im+_instances_loc-live-withdrawal_request_placed"`.) -/
theorem c6_table_entry_is_im_in_1 :
    CATEGORY_SANITIZATION_MAP.lookup "predisbursal_loan_query_im+_instances" =
      some "predisbursal_loan_query_im_in_1" ∧
    ("predisbursal_loan_query_im_in_1" : String) ≠ "predisbursal_loan_query_im_inst" := by
  constructor
  · rfl
  · decide

/-- C6 (amended): the fixed category sanitization table maps the raw category
label `"predisbursal_loan_query_im+_instances"` to the canonical identifier
`"predisbursal_loan_query_im_in_1"`, and maps the label
`"predisbursal_loan_query_im+_instances_loc-live-withdrawal_request_placed"`
to `"predisbursal_loan_query_im_inst"`. -/
theorem c6_amended_table_entries :
    CATEGORY_SANITIZATION_MAP.lookup "predisbursal_loan_query_im+_instances" =
      some "predisbursal_loan_query_im_in_1" ∧
    CATEGORY_SANITIZATION_MAP.lookup
        "predisbursal_loan_query_im+_instances_loc-live-withdrawal_request_placed" =
      some "predisbursal_loan_query_im_inst" := by
  exact ⟨rfl, rfl⟩

end EmailAutomation
